import Mathlib

/-!
Verification of the auto_ai_router gateway core against its specification.

The repository ships its production core outside the test tree; the
definitions below are shallow embeddings of the specified components
(credential router, provider adapters, streaming adapter, usage
normalizer, request dispatcher), each modelled from the specification
text, and the theorems settle the specification's claims against them.
-/

namespace AutoAiRouter

/-- Modelled from the spec: the canonical usage record
`\x7bprompt_tokens, completion_tokens, total_tokens,
completion_details.reasoning_tokens?\x7d` (spec section 3, "Usage record");
the core that produces it is not in the test tree. -/
structure Usage where
  prompt_tokens : Nat
  completion_tokens : Nat
  total_tokens : Nat
  reasoning_tokens : Option Nat
deriving Repr, DecidableEq

/-- Modelled from the spec: the usage normalizer's post-hoc enforcement of
`total_tokens = prompt_tokens + completion_tokens` (spec section 4.4): the
computed sum wins over a disagreeing provider-reported total. The
normalizer implementation is not in the test tree. -/
def normalizeUsage (u : Usage) : Usage :=
  { u with total_tokens := u.prompt_tokens + u.completion_tokens }

/-- Modelled from the spec: Vertex usage metadata as reported by the
provider (`promptTokenCount`, `candidatesTokenCount`,
`thoughtsTokenCount`); the adapter consuming it is not in the test tree. -/
structure VertexUsageMetadata where
  promptTokenCount : Nat
  candidatesTokenCount : Nat
  thoughtsTokenCount : Nat
deriving Repr, DecidableEq

/-- Modelled from the spec: the Vertex rule of the usage normalizer
(spec section 4.4): `promptTokenCount` becomes `prompt_tokens`,
`candidatesTokenCount + thoughtsTokenCount` becomes `completion_tokens`,
`thoughtsTokenCount` becomes `completion_details.reasoning_tokens`. -/
def vertexUsageToCanonical (m : VertexUsageMetadata) : Usage :=
  { prompt_tokens := m.promptTokenCount
    completion_tokens := m.candidatesTokenCount + m.thoughtsTokenCount
    total_tokens := m.promptTokenCount + (m.candidatesTokenCount + m.thoughtsTokenCount)
    reasoning_tokens := some m.thoughtsTokenCount }

/-- Modelled from the spec: a credential of the pool (spec section 3,
"Credential"): provider tag, set of eligible model identifiers, and the
mutable bookkeeping fields `banned_until` and `last_used` (timestamps as
naturals; `banned_until = 0` means never banned). The credential store
implementation is not in the test tree. -/
structure Credential where
  id : Nat
  provider : String
  models : List String
  banned_until : Nat
  last_used : Nat
deriving Repr, DecidableEq

/-- Modelled from the spec: a credential is eligible for a model at time
`now` when the model is in its eligible set and its ban has expired
(spec section 4.1: iteration skips any credential whose
`banned_until > now`). -/
def eligibleFor (now : Nat) (model : String) (c : Credential) : Bool :=
  c.models.contains model && decide (c.banned_until ≤ now)

/-- Modelled from the spec: the router's result type; `pick` either
returns a credential or fails with `NoEligibleCredential`
(spec section 4.1). -/
inductive PickResult where
  | ok (c : Credential)
  | noEligibleCredential
deriving Repr, DecidableEq

/-- Modelled from the spec: selection of the least-recently-used
credential from a list (spec section 4.1: round-robin with tie-break by
least-recently-used timestamp; picking the minimal `last_used` and
stamping it on use realises the round-robin order). Earlier list position
wins exact `last_used` ties. -/
def pickMin : List Credential → Option Credential
  | [] => none
  | c :: cs =>
    match pickMin cs with
    | none => some c
    | some b => if b.last_used < c.last_used then some b else some c

/-- Modelled from the spec: `pick(model_id)` (spec section 4.1): filter
the pool to the credentials eligible for the model at `now` (lazy ban
expiry), then take the least-recently-used; fail with
`NoEligibleCredential` when none is eligible. -/
def pick (now : Nat) (model : String) (pool : List Credential) : PickResult :=
  match pickMin (pool.filter (eligibleFor now model)) with
  | none => .noEligibleCredential
  | some c => .ok c

/-- Modelled from the spec: a successful pick updates the chosen
credential's last-used timestamp atomically before handing it out
(spec section 4.1). -/
def touchCredential (now : Nat) (c : Credential) (pool : List Credential) :
    List Credential :=
  pool.map (fun d => if d.id = c.id then { d with last_used := now } else d)

theorem pickMin_mem {l : List Credential} {c : Credential}
    (h : pickMin l = some c) : c ∈ l := by
  induction l with
  | nil => simp [pickMin] at h
  | cons a as ih =>
    simp only [pickMin] at h
    cases hm : pickMin as with
    | none =>
      rw [hm] at h
      simp at h
      simp [h]
    | some b =>
      rw [hm] at h
      by_cases hb : b.last_used < a.last_used
      · simp [hb] at h
        exact List.mem_cons_of_mem a (ih (h ▸ hm))
      · simp [hb] at h
        simp [h]

theorem pickMin_eq_none {l : List Credential} :
    pickMin l = none ↔ l = [] := by
  cases l with
  | nil => simp [pickMin]
  | cons a as =>
    simp only [pickMin]
    cases pickMin as with
    | none => simp
    | some b =>
      by_cases hb : b.last_used < a.last_used <;> simp [hb]

theorem pickMin_min :
    ∀ {l : List Credential} {c : Credential}, pickMin l = some c →
      ∀ d ∈ l, c.last_used ≤ d.last_used := by
  intro l
  induction l with
  | nil => intro c h; simp [pickMin] at h
  | cons a as ih =>
    intro c h d hd
    simp only [pickMin] at h
    cases hm : pickMin as with
    | none =>
      rw [hm] at h
      simp at h
      rcases List.mem_cons.mp hd with hda | hda
      · simp [h, hda]
      · exact absurd (pickMin_eq_none.mp hm ▸ hda) (List.not_mem_nil d)
    | some b =>
      rw [hm] at h
      by_cases hb : b.last_used < a.last_used
      · simp [hb] at h
        subst h
        rcases List.mem_cons.mp hd with hda | hda
        · exact hda ▸ Nat.le_of_lt hb
        · exact ih hm d hda
      · simp [hb] at h
        subst h
        rcases List.mem_cons.mp hd with hda | hda
        · simp [hda]
        · exact Nat.le_trans (Nat.le_of_not_lt hb) (ih hm d hda)

/-- Modelled from the spec: a canonical chat message (spec section 3,
"Canonical request"); content is kept as its textual payload, which is
all the dispatcher-level claims need. -/
structure Message where
  role : String
  content : String
deriving Repr, DecidableEq

/-- Modelled from the spec: the canonical chat-completion request body
(spec section 3): client-facing model alias, ordered messages, stream
flag and `stream_options.include_usage`. -/
structure ChatRequest where
  model : String
  messages : List Message
  stream : Bool
  include_usage : Bool
deriving Repr, DecidableEq

/-- Modelled from the spec: the part of the incoming HTTP request the
dispatcher inspects: the `Authorization` header (absent when the client
sent none) and the parsed body. -/
structure HttpChatRequest where
  authorization : Option String
  body : ChatRequest
deriving Repr, DecidableEq

/-- Modelled from the spec: extraction of the `Bearer` value from the
`Authorization` header (spec section 6, "Auth"); a missing header or one
without the `Bearer ` scheme yields no value. -/
def extractBearer (h : Option String) : Option String :=
  match h with
  | none => none
  | some s =>
    if "Bearer ".data.isPrefixOf s.data then some (String.mk (s.data.drop 7))
    else none

/-- Modelled from the spec: the OpenAI-shaped error body
`\x7berror: \x7bmessage, type, code\x7d\x7d` (spec section 6); the `error`
wrapper is implicit in the structure. -/
structure ErrorBody where
  message : String
  type : String
  code : String
deriving Repr, DecidableEq

/-- Modelled from the spec: the 401 body for client auth failure
(spec section 6, "Auth"). -/
def invalidApiKeyBody : ErrorBody :=
  { message := "Invalid API key"
    type := "invalid_request_error"
    code := "invalid_api_key" }

/-- Modelled from the spec: the 404 body for an unbound model
(spec section 7, `UnknownModel`). -/
def unknownModelBody : ErrorBody :=
  { message := "Unknown model"
    type := "invalid_request_error"
    code := "model_not_found" }

/-- Modelled from the spec: the 400 body for a canonical request the
adapter rejects, here an empty `messages` list (spec section 7,
`AdapterError`). -/
def emptyMessagesBody : ErrorBody :=
  { message := "messages must be a non-empty list"
    type := "invalid_request_error"
    code := "invalid_request" }

/-- Modelled from the spec: the 503 body for an exhausted credential pool
(spec section 7, `NoEligibleCredential`). -/
def noCredentialBody : ErrorBody :=
  { message := "No eligible credential"
    type := "api_error"
    code := "no_eligible_credential" }

/-- Modelled from the spec: the 502 body when the retry budget is
exhausted (spec section 4.6 step 7). -/
def retryExhaustedBody : ErrorBody :=
  { message := "Upstream retries exhausted"
    type := "api_error"
    code := "upstream_exhausted" }

/-- Modelled from the spec: a model binding value (spec section 3,
"Model binding"): provider tag and provider-native canonical model id. -/
structure Binding where
  provider : String
  canonical_model : String
deriving Repr, DecidableEq

/-- Modelled from the spec: lookup in the model-binding map, keyed by the
client-facing model id. -/
def lookupBinding (bindings : List (String × Binding)) (model : String) :
    Option Binding :=
  match bindings.find? (fun p => p.1 == model) with
  | none => none
  | some p => some p.2

/-- Modelled from the spec: gateway configuration read at startup
(spec section 6, "Configuration"): master key and model bindings. -/
structure GatewayConfig where
  masterKey : String
  bindings : List (String × Binding)
deriving Repr, DecidableEq

/-- Modelled from the spec: a provider-native chat response reduced to
what the response adapter consumes: the provider-native model id, the
assistant text, and provider-reported usage. -/
structure NativeChatResponse where
  model : String
  content : String
  usage : Usage
deriving Repr, DecidableEq

/-- Modelled from the spec: the classified result of one upstream call
(spec sections 4.5 and 7): success, retryable transient failure
(429/5xx/network), or permanent failure surfaced with its status. -/
inductive UpstreamResult where
  | ok (resp : NativeChatResponse)
  | transient
  | permanent (status : Nat) (message : String)
deriving Repr, DecidableEq

/-- Modelled from the spec: the canonical chat response returned to the
client (spec section 3, "Canonical response"), reduced to the fields the
claims inspect. -/
structure ChatResponse where
  model : String
  content : String
  usage : Usage
deriving Repr, DecidableEq

/-- Modelled from the spec: what the gateway sends back for one request:
a 200 canonical response or an error status with an OpenAI-shaped body. -/
inductive Outcome where
  | success (resp : ChatResponse)
  | failure (status : Nat) (body : ErrorBody)
deriving Repr, DecidableEq

/-- Modelled from the spec: the chat response adapter's client-facing
obligations (spec sections 4.2 and 4.4): rewrite the model name back to
the client-facing alias and normalize usage post-hoc. -/
def adaptChatResponse (clientModel : String) (n : NativeChatResponse) :
    ChatResponse :=
  { model := clientModel
    content := n.content
    usage := normalizeUsage n.usage }

/-- Modelled from the spec: banning a credential after a transient
failure (spec section 4.1, "Ban policy"), with the short fixed backoff. -/
def banCredential (now : Nat) (c : Credential) (pool : List Credential) :
    List Credential :=
  pool.map (fun d => if d.id = c.id then { d with banned_until := now + 30 } else d)

/-- Modelled from the spec: the retry/failover loop (spec sections 4.5
and 4.6 steps 3-7): pick a credential (503 when none), call upstream,
adapt on success, ban and re-dispatch on a transient failure within the
attempt budget (502 on exhaustion), surface permanent failures. -/
def attemptDispatch (upstream : Credential → UpstreamResult)
    (clientModel : String) (now : Nat) :
    Nat → List Credential → Outcome
  | 0, _ => .failure 502 retryExhaustedBody
  | fuel + 1, pool =>
    match pick now clientModel pool with
    | .noEligibleCredential => .failure 503 noCredentialBody
    | .ok c =>
      match upstream c with
      | .ok n => .success (adaptChatResponse clientModel n)
      | .transient => attemptDispatch upstream clientModel now fuel (banCredential now c pool)
      | .permanent status msg =>
        .failure status { message := msg, type := "api_error", code := "upstream_error" }

/-- Modelled from the spec: the attempt budget, a small bounded integer
(spec section 4.5). -/
def attemptBudget : Nat := 3

/-- Modelled from the spec: the request dispatcher's single logical flow
(spec section 4.6): authenticate against the master key (401 on
mismatch), validate the canonical request (400 on an empty `messages`
list), look up the model binding (404 when unknown), then run the
pick/call/adapt loop. `upstream` stands for the provider call made with
a binding and a credential. -/
def dispatchChat (cfg : GatewayConfig) (pool : List Credential) (now : Nat)
    (upstream : Binding → Credential → UpstreamResult)
    (req : HttpChatRequest) : Outcome :=
  if extractBearer req.authorization = some cfg.masterKey then
    if req.body.messages.isEmpty then
      .failure 400 emptyMessagesBody
    else
      match lookupBinding cfg.bindings req.body.model with
      | none => .failure 404 unknownModelBody
      | some b => attemptDispatch (upstream b) req.body.model now attemptBudget pool
  else
    .failure 401 invalidApiKeyBody

/-- Modelled from the spec: a tool-call fragment inside a streamed delta
(spec section 4.3, "Ordering guarantees"): its `index`, an optional
function name (present on the first fragment), and an `arguments`
fragment to be reassembled by concatenation. -/
structure ToolCallFragment where
  index : Nat
  name : Option String
  args : String
deriving Repr, DecidableEq

/-- Modelled from the spec: the `choices[0].delta` payload of a canonical
streamed chunk (spec section 4.3): incremental `content` or `tool_calls`
fragments. -/
structure Delta where
  content : Option String
  tool_calls : List ToolCallFragment
deriving Repr, DecidableEq

/-- Modelled from the spec: one canonical streamed chat-completion chunk
(spec section 4.3): model alias, `choices[0].delta`, an optional
`finish_reason`, and the optional final `usage` object. -/
structure StreamChunk where
  model : String
  delta : Delta
  finish_reason : Option String
  usage : Option Usage
deriving Repr, DecidableEq

/-- Modelled from the spec: a provider-side streaming event after native
parsing (spec section 4.3, "Provider-specific parsing"): a content
delta, a tool-call fragment, or the final event carrying the finish
reason and the provider-reported usage. -/
inductive ProviderEvent where
  | contentDelta (text : String)
  | toolCallDelta (index : Nat) (name : Option String) (args : String)
  | finish (reason : String) (usage : Usage)
deriving Repr, DecidableEq

/-- Modelled from the spec: the canonical chunks one provider event
produces (spec section 4.3): a content event becomes one content delta,
a tool-call event one tool-call fragment chunk, and the final event a
finish chunk followed — when `stream_options.include_usage` is set — by
a chunk carrying the normalized usage. -/
def chunksOfEvent (clientModel : String) (includeUsage : Bool) :
    ProviderEvent → List StreamChunk
  | .contentDelta t =>
    [{ model := clientModel
       delta := { content := some t, tool_calls := [] }
       finish_reason := none
       usage := none }]
  | .toolCallDelta i n a =>
    [{ model := clientModel
       delta := { content := none, tool_calls := [⟨i, n, a⟩] }
       finish_reason := none
       usage := none }]
  | .finish r u =>
    { model := clientModel
      delta := { content := none, tool_calls := [] }
      finish_reason := some r
      usage := none } ::
    (if includeUsage then
      [{ model := clientModel
         delta := { content := none, tool_calls := [] }
         finish_reason := none
         usage := some (normalizeUsage u) }]
     else [])

/-- Modelled from the spec: the streaming adapter (spec section 4.3):
each parsed provider event yields zero or more canonical chunks, flushed
in upstream order. -/
def adaptStream (clientModel : String) (includeUsage : Bool) :
    List ProviderEvent → List StreamChunk
  | [] => []
  | e :: es =>
    chunksOfEvent clientModel includeUsage e ++
      adaptStream clientModel includeUsage es

/-- Modelled from the spec: JSON string escaping for the SSE payloads. -/
def jsonEscape (s : String) : String :=
  ((s.replace "\\" "\\\\").replace "\"" "\\\"").replace "\n" "\\n"

/-- Modelled from the spec: a JSON string literal. -/
def jsonStr (s : String) : String :=
  "\"" ++ jsonEscape s ++ "\""

/-- Modelled from the spec: JSON encoding of one tool-call fragment of a
streamed delta. -/
def encodeToolFragment (t : ToolCallFragment) : String :=
  "\x7b\"index\":" ++ toString t.index ++ ",\"type\":\"function\",\"function\":\x7b" ++
    (match t.name with
     | none => ""
     | some n => "\"name\":" ++ jsonStr n ++ ",") ++
    "\"arguments\":" ++ jsonStr t.args ++ "\x7d\x7d"

/-- Modelled from the spec: JSON encoding of a `choices[0].delta`
payload. -/
def encodeDelta (d : Delta) : String :=
  match d.content, d.tool_calls with
  | some t, _ => "\x7b\"content\":" ++ jsonStr t ++ "\x7d"
  | none, [] => "\x7b\x7d"
  | none, ts =>
    "\x7b\"tool_calls\":[" ++ String.intercalate "," (ts.map encodeToolFragment) ++ "]\x7d"

/-- Modelled from the spec: JSON encoding of the canonical usage object. -/
def encodeUsage (u : Usage) : String :=
  "\x7b\"prompt_tokens\":" ++ toString u.prompt_tokens ++
    ",\"completion_tokens\":" ++ toString u.completion_tokens ++
    ",\"total_tokens\":" ++ toString u.total_tokens ++ "\x7d"

/-- Modelled from the spec: JSON encoding of one canonical streamed
chunk in OpenAI's chunked chat-completion format (spec section 4.3). -/
def encodeChunk (c : StreamChunk) : String :=
  "\x7b\"object\":\"chat.completion.chunk\",\"model\":" ++ jsonStr c.model ++
    ",\"choices\":[\x7b\"index\":0,\"delta\":" ++ encodeDelta c.delta ++
    (match c.finish_reason with
     | none => ",\"finish_reason\":null"
     | some r => ",\"finish_reason\":" ++ jsonStr r) ++ "\x7d]" ++
    (match c.usage with
     | none => ""
     | some u => ",\"usage\":" ++ encodeUsage u) ++ "\x7d"

/-- Modelled from the spec: one SSE event `data: <payload>` followed by
the blank-line terminator (spec section 4.3). -/
def sseFrame (payload : String) : String :=
  "data: " ++ payload ++ "\n\n"

/-- Modelled from the spec: the terminal SSE event of a normally
completed stream (spec section 4.3). -/
def sseDone : String :=
  sseFrame "[DONE]"

/-- Modelled from the spec: the full SSE event sequence the gateway
emits for one streamed chat completion that completes normally
(spec section 4.3): each canonical chunk framed as a `data:` event, then
the terminal `data: [DONE]` event. -/
def renderStream (clientModel : String) (includeUsage : Bool)
    (events : List ProviderEvent) : List String :=
  (adaptStream clientModel includeUsage events).map
      (fun c => sseFrame (encodeChunk c)) ++ [sseDone]

/-- Modelled from the spec: the canonical `/v1/images/generations`
request body (spec sections 4.2 and 6): model, prompt, number of images
`n`, and `size`. -/
structure ImagesRequest where
  model : String
  prompt : String
  n : Nat
  size : String
deriving Repr, DecidableEq

/-- Modelled from the spec: one instance of the provider's `predict`
call, carrying the prompt. -/
structure PredictInstance where
  prompt : String
deriving Repr, DecidableEq

/-- Modelled from the spec: the size-to-aspect-ratio derivation for the
provider's `aspectRatio` parameter (spec section 4.2: aspect ratio or
dimensions from `size`); square sizes map to 1:1. -/
def aspectOfSize (size : String) : String :=
  if size = "1792x1024" then "16:9"
  else if size = "1024x1792" then "9:16"
  else "1:1"

/-- Modelled from the spec: the parameters object of the provider's
`predict` call; `aspect` models the provider's `aspectRatio` field. -/
structure PredictParameters where
  sampleCount : Nat
  aspect : String
deriving Repr, DecidableEq

/-- Modelled from the spec: the provider's `predict` request
`\x7binstances: [\x7bprompt\x7d], parameters: \x7bsampleCount: n, ...\x7d\x7d`
(spec section 4.2, Vertex image generation). -/
structure PredictRequest where
  instances : List PredictInstance
  parameters : PredictParameters
deriving Repr, DecidableEq

/-- Modelled from the spec: translation of the canonical image request
into the provider's `predict` call (spec section 4.2): one instance with
the prompt, `sampleCount` set to `n`, aspect derived from `size`. -/
def adaptImageRequest (r : ImagesRequest) : PredictRequest :=
  { instances := [{ prompt := r.prompt }]
    parameters := { sampleCount := r.n, aspect := aspectOfSize r.size } }

/-- Modelled from the spec: one prediction of the provider's `predict`
response, carrying base64-encoded image bytes. -/
structure Prediction where
  bytesBase64Encoded : String
deriving Repr, DecidableEq

/-- Modelled from the spec: the provider's `predict` response. -/
structure PredictResponse where
  predictions : List Prediction
deriving Repr, DecidableEq

/-- Modelled from the spec: one entry of the canonical image response's
`data` array, carrying `b64_json` (spec section 6). -/
structure ImageData where
  b64_json : String
deriving Repr, DecidableEq

/-- Modelled from the spec: the canonical `/v1/images/generations`
response body with its `data` array (spec section 6). -/
structure ImagesResponse where
  data : List ImageData
deriving Repr, DecidableEq

/-- Modelled from the spec: translation of the provider's `predict`
response back into the canonical image response: each prediction becomes
one `data` entry with its base64 payload as `b64_json`. -/
def adaptImageResponse (resp : PredictResponse) : ImagesResponse :=
  { data := resp.predictions.map (fun p => { b64_json := p.bytesBase64Encoded }) }

/-- Modelled from the spec: the successful image-generation flow
(spec section 4.2): adapt the canonical request into the provider's
`predict` call, issue it, adapt the response back. -/
def imageGeneration (predict : PredictRequest → PredictResponse)
    (r : ImagesRequest) : ImagesResponse :=
  adaptImageResponse (predict (adaptImageRequest r))

theorem normalizeUsage_total (u : Usage) :
    (normalizeUsage u).total_tokens =
      (normalizeUsage u).prompt_tokens + (normalizeUsage u).completion_tokens := rfl

theorem pick_ok_spec {now : Nat} {m : String} {pool : List Credential}
    {c : Credential} (h : pick now m pool = PickResult.ok c) :
    c ∈ pool ∧ eligibleFor now m c = true ∧
      ∀ d ∈ pool, eligibleFor now m d = true → c.last_used ≤ d.last_used := by
  unfold pick at h
  cases hm : pickMin (pool.filter (eligibleFor now m)) with
  | none => rw [hm] at h; exact PickResult.noConfusion h
  | some b =>
    rw [hm] at h
    injection h with h
    subst h
    have hmem := pickMin_mem hm
    have hf := List.mem_filter.mp hmem
    refine ⟨hf.1, hf.2, ?_⟩
    intro d hd he
    exact pickMin_min hm d (List.mem_filter.mpr ⟨hd, he⟩)

theorem pick_none_iff {now : Nat} {m : String} {pool : List Credential} :
    pick now m pool = PickResult.noEligibleCredential ↔
      ∀ c ∈ pool, eligibleFor now m c = false := by
  constructor
  · intro h c hc
    cases hcb : eligibleFor now m c with
    | false => rfl
    | true =>
      exfalso
      have hmem : c ∈ pool.filter (eligibleFor now m) :=
        List.mem_filter.mpr ⟨hc, hcb⟩
      unfold pick at h
      cases hm : pickMin (pool.filter (eligibleFor now m)) with
      | none =>
        rw [pickMin_eq_none.mp hm] at hmem
        exact List.not_mem_nil c hmem
      | some b => rw [hm] at h; exact PickResult.noConfusion h
  · intro hall
    have hfil : pool.filter (eligibleFor now m) = [] := by
      apply List.filter_eq_nil_iff.mpr
      intro a ha
      simp [hall a ha]
    unfold pick
    rw [hfil]
    rfl

theorem attemptDispatch_success
    {upstream : Credential → UpstreamResult} {clientModel : String} {now : Nat} :
    ∀ (fuel : Nat) (pool : List Credential) (resp : ChatResponse),
      attemptDispatch upstream clientModel now fuel pool = Outcome.success resp →
      ∃ n, resp = adaptChatResponse clientModel n := by
  intro fuel
  induction fuel with
  | zero =>
    intro pool resp h
    simp [attemptDispatch] at h
  | succ k ih =>
    intro pool resp h
    simp only [attemptDispatch] at h
    cases hp : pick now clientModel pool with
    | noEligibleCredential =>
      rw [hp] at h
      exact Outcome.noConfusion h
    | ok c =>
      rw [hp] at h
      dsimp only at h
      cases hu : upstream c with
      | ok n =>
        rw [hu] at h
        dsimp only at h
        injection h with h
        exact ⟨n, h.symm⟩
      | transient =>
        rw [hu] at h
        exact ih _ _ h
      | permanent status msg =>
        rw [hu] at h
        exact Outcome.noConfusion h

theorem dispatchChat_success {cfg : GatewayConfig} {pool : List Credential}
    {now : Nat} {upstream : Binding → Credential → UpstreamResult}
    {req : HttpChatRequest} {resp : ChatResponse}
    (h : dispatchChat cfg pool now upstream req = Outcome.success resp) :
    ∃ n, resp = adaptChatResponse req.body.model n := by
  unfold dispatchChat at h
  by_cases hauth : extractBearer req.authorization = some cfg.masterKey
  · rw [if_pos hauth] at h
    cases hempty : req.body.messages.isEmpty with
    | true => rw [hempty] at h; simp at h
    | false =>
      rw [hempty] at h
      simp only [Bool.false_eq_true, if_false] at h
      cases hb : lookupBinding cfg.bindings req.body.model with
      | none => rw [hb] at h; exact Outcome.noConfusion h
      | some b => rw [hb] at h; exact attemptDispatch_success _ _ _ h
  · rw [if_neg hauth] at h; exact Outcome.noConfusion h

theorem adaptStream_append (m : String) (b : Bool)
    (xs ys : List ProviderEvent) :
    adaptStream m b (xs ++ ys) = adaptStream m b xs ++ adaptStream m b ys := by
  induction xs with
  | nil => simp [adaptStream]
  | cons e es ih => simp [adaptStream, ih, List.append_assoc]

theorem adaptStream_finish_last (m : String) (es : List ProviderEvent)
    (r : String) (u : Usage) :
    (adaptStream m true (es ++ [ProviderEvent.finish r u])).getLast? =
      some { model := m
             delta := { content := none, tool_calls := [] }
             finish_reason := none
             usage := some (normalizeUsage u) } := by
  rw [adaptStream_append]
  simp [adaptStream, chunksOfEvent]

theorem adaptStream_chunk_shape (m : String) (b : Bool) :
    ∀ events : List ProviderEvent, ∀ c ∈ adaptStream m b events,
      c.model = m ∧
        ((∃ t, c.delta = { content := some t, tool_calls := [] }) ∨
         (∃ frag, c.delta = { content := none, tool_calls := [frag] }) ∨
         (c.delta = { content := none, tool_calls := [] } ∧
           (c.finish_reason.isSome ∨ c.usage.isSome))) := by
  intro events
  induction events with
  | nil =>
    intro c hc
    simp [adaptStream] at hc
  | cons e es ih =>
    intro c hc
    simp only [adaptStream, List.mem_append] at hc
    rcases hc with hc | hc
    · cases e with
      | contentDelta t =>
        simp [chunksOfEvent] at hc
        subst hc
        exact ⟨rfl, Or.inl ⟨t, rfl⟩⟩
      | toolCallDelta i n a =>
        simp [chunksOfEvent] at hc
        subst hc
        exact ⟨rfl, Or.inr (Or.inl ⟨⟨i, n, a⟩, rfl⟩)⟩
      | finish r u =>
        simp only [chunksOfEvent, List.mem_cons] at hc
        rcases hc with hc | hc
        · subst hc
          exact ⟨rfl, Or.inr (Or.inr ⟨rfl, Or.inl rfl⟩)⟩
        · cases b with
          | false => simp at hc
          | true =>
            simp at hc
            subst hc
            exact ⟨rfl, Or.inr (Or.inr ⟨rfl, Or.inr rfl⟩)⟩
    · exact ih c hc

/-- A credential fixture: an OpenAI credential, never banned. -/
def credA : Credential :=
  { id := 1, provider := "openai", models := ["gpt-4o-mini"]
    banned_until := 0, last_used := 5 }

/-- A credential fixture: a Vertex credential banned until time 100. -/
def credB : Credential :=
  { id := 2, provider := "vertex", models := ["gemini-2.5-flash"]
    banned_until := 100, last_used := 3 }

/-- A concrete pool fixture. -/
def poolW : List Credential := [credA, credB]

/-- A concrete gateway configuration fixture. -/
def cfgW : GatewayConfig :=
  { masterKey := "sk-master"
    bindings := [("gpt-4o-mini",
      { provider := "openai", canonical_model := "gpt-4o-mini-2024-07-18" })] }

/-- A concrete provider-native response fixture whose reported total
disagrees with the component sum. -/
def nativeW : NativeChatResponse :=
  { model := "gpt-4o-mini-2024-07-18", content := "Hello!"
    usage := { prompt_tokens := 7, completion_tokens := 5, total_tokens := 99
               reasoning_tokens := none } }

/-- An upstream fixture that always succeeds. -/
def okUpstreamW : Binding → Credential → UpstreamResult :=
  fun _ _ => UpstreamResult.ok nativeW

/-- An upstream fixture with a different behaviour, used to show that a
rejected request's outcome does not depend on the upstream. -/
def altUpstreamW : Binding → Credential → UpstreamResult :=
  fun _ _ => UpstreamResult.permanent 418 "teapot"

/-- A well-formed request fixture with the correct master key. -/
def goodReqW : HttpChatRequest :=
  { authorization := some "Bearer sk-master"
    body := { model := "gpt-4o-mini"
              messages := [{ role := "user", content := "hi" }]
              stream := false, include_usage := false } }

/-- A request fixture with a wrong bearer token. -/
def badAuthReqW : HttpChatRequest :=
  { authorization := some "Bearer wrong", body := goodReqW.body }

/-- A request fixture with no Authorization header. -/
def noAuthReqW : HttpChatRequest :=
  { authorization := none, body := goodReqW.body }

/-- A request fixture with an empty bearer value. -/
def emptyAuthReqW : HttpChatRequest :=
  { authorization := some "Bearer ", body := goodReqW.body }

/-- A request fixture naming a model with no binding. -/
def unknownModelReqW : HttpChatRequest :=
  { authorization := some "Bearer sk-master"
    body := { model := "non-existent-model"
              messages := [{ role := "user", content := "test" }]
              stream := false, include_usage := false } }

/-- A request fixture with an empty messages list. -/
def emptyMsgReqW : HttpChatRequest :=
  { authorization := some "Bearer sk-master"
    body := { model := "gpt-4o-mini", messages := []
              stream := false, include_usage := false } }

/-- A usage fixture whose reported total disagrees with the sum. -/
def usageW : Usage :=
  { prompt_tokens := 7, completion_tokens := 5, total_tokens := 99
    reasoning_tokens := none }

/-- A predict-endpoint fixture honouring `sampleCount`. -/
def fixedPredict : PredictRequest → PredictResponse :=
  fun q =>
    { predictions :=
        List.replicate q.parameters.sampleCount { bytesBase64Encoded := "aGVsbG8=" } }

/-- C1: For every non-streamed successful response, and for the final chunk of
every streamed response when `stream_options.include_usage` is set, the usage
record satisfies `total_tokens = prompt_tokens + completion_tokens`; when a
provider's reported total disagrees with this sum, the returned total is the
computed sum. -/
theorem usage_total_invariant :
    (∀ (cfg : GatewayConfig) (pool : List Credential) (now : Nat)
       (upstream : Binding → Credential → UpstreamResult)
       (req : HttpChatRequest) (resp : ChatResponse),
       dispatchChat cfg pool now upstream req = Outcome.success resp →
       resp.usage.total_tokens =
         resp.usage.prompt_tokens + resp.usage.completion_tokens) ∧
    (∀ u : Usage,
       u.total_tokens ≠ u.prompt_tokens + u.completion_tokens →
       (normalizeUsage u).total_tokens =
         u.prompt_tokens + u.completion_tokens) ∧
    (∀ (m : String) (es : List ProviderEvent) (r : String) (u : Usage)
       (c : StreamChunk) (w : Usage),
       (adaptStream m true (es ++ [ProviderEvent.finish r u])).getLast? = some c →
       c.usage = some w →
       w.total_tokens = w.prompt_tokens + w.completion_tokens) := by
  refine ⟨?_, ?_, ?_⟩
  · intro cfg pool now upstream req resp h
    rcases dispatchChat_success h with ⟨n, rfl⟩
    rfl
  · intro u _
    rfl
  · intro m es r u c w h1 h2
    rw [adaptStream_finish_last] at h1
    injection h1 with h1
    subst h1
    simp only [normalizeUsage, Option.some.injEq] at h2
    subst h2
    rfl

/-- Witness for C1 at concrete inputs: dispatching a valid request through an
upstream whose reported total (99) disagrees with 7 + 5 yields a response
whose usage satisfies the sum invariant. -/
theorem usage_total_invariant_witness :
    (adaptChatResponse "gpt-4o-mini" nativeW).usage.total_tokens =
      (adaptChatResponse "gpt-4o-mini" nativeW).usage.prompt_tokens +
        (adaptChatResponse "gpt-4o-mini" nativeW).usage.completion_tokens :=
  usage_total_invariant.1 cfgW poolW 10 okUpstreamW goodReqW
    (adaptChatResponse "gpt-4o-mini" nativeW) (by decide)

/-- C2: For every credential `c` whose `banned_until` timestamp is strictly
greater than the current time, and for every model `m`, `router.pick(m)` does
not return `c`; `c` becomes eligible again only once its ban has expired. -/
theorem banned_credential_never_picked (now : Nat) (m : String)
    (pool : List Credential) (c : Credential) :
    (now < c.banned_until → pick now m pool ≠ PickResult.ok c) ∧
    (c ∈ pool → c.models.contains m = true → c.banned_until ≤ now →
      ∃ d, pick now m pool = PickResult.ok d) := by
  constructor
  · intro hban hpick
    have he := (pick_ok_spec hpick).2.1
    simp only [eligibleFor, Bool.and_eq_true, decide_eq_true_eq] at he
    exact absurd he.2 (Nat.not_le_of_lt hban)
  · intro hmem hcont hexp
    cases hp : pick now m pool with
    | ok d => exact ⟨d, rfl⟩
    | noEligibleCredential =>
      exfalso
      have hfalse := pick_none_iff.mp hp c hmem
      have hmemm : m ∈ c.models := by simpa using hcont
      simp [eligibleFor, hexp] at hfalse
      exact hfalse hmemm

/-- Witness for C2 at concrete inputs: the credential banned until time 100 is
not picked at time 10, and at time 150 (after expiry) a pick for its model
succeeds. -/
theorem banned_credential_never_picked_witness :
    pick 10 "gemini-2.5-flash" poolW ≠ PickResult.ok credB ∧
    (∃ d, pick 150 "gemini-2.5-flash" poolW = PickResult.ok d) :=
  ⟨(banned_credential_never_picked 10 "gemini-2.5-flash" poolW credB).1 (by decide),
   (banned_credential_never_picked 150 "gemini-2.5-flash" poolW credB).2
     (by decide) (by decide) (by decide)⟩

/-- C3: `router.pick(model_id)` either returns a credential or fails with
`NoEligibleCredential`; selection iterates round-robin over exactly the
credentials eligible for `model_id`, skipping any whose `banned_until > now`,
and breaks ties between equally eligible credentials by least-recently-used
timestamp. The third conjunct shows the round-robin rotation: once a picked
credential's last-used stamp is updated, it is not picked again ahead of a
less recently used eligible credential. -/
theorem pick_contract (now : Nat) (m : String) (pool : List Credential) :
    (pick now m pool = PickResult.noEligibleCredential ↔
      ∀ c ∈ pool, eligibleFor now m c = false) ∧
    (∀ c, pick now m pool = PickResult.ok c →
      c ∈ pool ∧ eligibleFor now m c = true ∧
        ∀ d ∈ pool, eligibleFor now m d = true → c.last_used ≤ d.last_used) ∧
    (∀ c d, pick now m pool = PickResult.ok c → d ∈ pool → d.id ≠ c.id →
      eligibleFor now m d = true → d.last_used < now →
      ∀ now2, now ≤ now2 →
        pick now2 m (touchCredential now c pool) ≠
          PickResult.ok { c with last_used := now }) := by
  refine ⟨pick_none_iff, fun c h => pick_ok_spec h, ?_⟩
  intro c d _ hd hdne helig hlt now2 hle hp2
  have spec2 := pick_ok_spec hp2
  have hdmem : d ∈ touchCredential now c pool := by
    have hfix :
        (fun e => if e.id = c.id then { e with last_used := now } else e) d = d := by
      simp [hdne]
    have hm := List.mem_map_of_mem
      (fun e => if e.id = c.id then { e with last_used := now } else e) hd
    rw [hfix] at hm
    exact hm
  have helig2 : eligibleFor now2 m d = true := by
    simp only [eligibleFor, Bool.and_eq_true, decide_eq_true_eq] at helig ⊢
    exact ⟨helig.1, Nat.le_trans helig.2 hle⟩
  have hmin := spec2.2.2 d hdmem helig2
  exact absurd hmin (Nat.not_le_of_lt hlt)

/-- Witness for C3 at concrete inputs: on the fixture pool, picking the bound
OpenAI model succeeds while picking an unknown model fails with
`NoEligibleCredential`; membership and eligibility of the picked credential
follow from the contract. -/
theorem pick_contract_witness :
    pick 10 "no-such-model" poolW = PickResult.noEligibleCredential ∧
    credA ∈ poolW ∧ eligibleFor 10 "gpt-4o-mini" credA = true :=
  ⟨(pick_contract 10 "no-such-model" poolW).1.mpr (by decide),
   ((pick_contract 10 "gpt-4o-mini" poolW).2.1 credA (by decide)).1,
   ((pick_contract 10 "gpt-4o-mini" poolW).2.1 credA (by decide)).2.1⟩

/-- C4: For every client request whose `Authorization: Bearer` value does not
equal the configured master key (including a missing or empty value), the
gateway responds with HTTP status 401 and an OpenAI-shaped error body
`\x7berror: \x7bmessage, type: "invalid_request_error",
code: "invalid_api_key"\x7d\x7d`, and no upstream call is made (the outcome is
independent of the upstream function). -/
theorem invalid_auth_rejected (cfg : GatewayConfig) (pool : List Credential)
    (now : Nat) (upstream upstream2 : Binding → Credential → UpstreamResult)
    (req : HttpChatRequest)
    (h : extractBearer req.authorization ≠ some cfg.masterKey) :
    dispatchChat cfg pool now upstream req =
      Outcome.failure 401 invalidApiKeyBody ∧
    invalidApiKeyBody.type = "invalid_request_error" ∧
    invalidApiKeyBody.code = "invalid_api_key" ∧
    dispatchChat cfg pool now upstream req =
      dispatchChat cfg pool now upstream2 req := by
  unfold dispatchChat
  rw [if_neg h, if_neg h]
  exact ⟨rfl, rfl, rfl, rfl⟩

/-- Witness for C4 at concrete inputs: a wrong bearer token, a missing
Authorization header, and an empty bearer value each yield the 401
invalid-api-key outcome, independently of the upstream function. -/
theorem invalid_auth_rejected_witness :
    dispatchChat cfgW poolW 10 okUpstreamW badAuthReqW =
      Outcome.failure 401 invalidApiKeyBody ∧
    dispatchChat cfgW poolW 10 okUpstreamW noAuthReqW =
      Outcome.failure 401 invalidApiKeyBody ∧
    dispatchChat cfgW poolW 10 okUpstreamW emptyAuthReqW =
      Outcome.failure 401 invalidApiKeyBody ∧
    dispatchChat cfgW poolW 10 okUpstreamW badAuthReqW =
      dispatchChat cfgW poolW 10 altUpstreamW badAuthReqW :=
  ⟨(invalid_auth_rejected cfgW poolW 10 okUpstreamW altUpstreamW badAuthReqW
      (by decide)).1,
   (invalid_auth_rejected cfgW poolW 10 okUpstreamW altUpstreamW noAuthReqW
      (by decide)).1,
   (invalid_auth_rejected cfgW poolW 10 okUpstreamW altUpstreamW emptyAuthReqW
      (by decide)).1,
   (invalid_auth_rejected cfgW poolW 10 okUpstreamW altUpstreamW badAuthReqW
      (by decide)).2.2.2⟩

/-- C5: For every streamed chat completion that completes normally, the
gateway emits a sequence of SSE events of the form `data: <delta JSON>`
followed by a blank line, terminated by `data: [DONE]`; each data chunk
carries `choices[0].delta` with incremental content or tool_calls fragments
(the final chunks carrying only `finish_reason` or `usage` have an empty
delta), and when `stream_options.include_usage` is true the final chunk
carries the usage object. -/
theorem streaming_sse_contract (m : String) (includeUsage : Bool)
    (es : List ProviderEvent) (r : String) (u : Usage) :
    (renderStream m includeUsage (es ++ [ProviderEvent.finish r u])).getLast? =
      some sseDone ∧
    sseDone = "data: [DONE]" ++ "\n\n" ∧
    (∀ s ∈ renderStream m includeUsage (es ++ [ProviderEvent.finish r u]),
      s = sseDone ∨
        ∃ c ∈ adaptStream m includeUsage (es ++ [ProviderEvent.finish r u]),
          s = "data: " ++ encodeChunk c ++ "\n\n") ∧
    (∀ c ∈ adaptStream m includeUsage (es ++ [ProviderEvent.finish r u]),
      c.model = m ∧
        ((∃ t, c.delta = { content := some t, tool_calls := [] }) ∨
         (∃ frag, c.delta = { content := none, tool_calls := [frag] }) ∨
         (c.delta = { content := none, tool_calls := [] } ∧
           (c.finish_reason.isSome ∨ c.usage.isSome)))) ∧
    (includeUsage = true →
      (adaptStream m includeUsage (es ++ [ProviderEvent.finish r u])).getLast? =
        some { model := m
               delta := { content := none, tool_calls := [] }
               finish_reason := none
               usage := some (normalizeUsage u) }) := by
  refine ⟨?_, by decide, ?_, adaptStream_chunk_shape m includeUsage _, ?_⟩
  · simp [renderStream]
  · intro s hs
    simp only [renderStream, List.mem_append, List.mem_map,
      List.mem_singleton] at hs
    rcases hs with ⟨c, hc, rfl⟩ | rfl
    · exact Or.inr ⟨c, hc, rfl⟩
    · exact Or.inl rfl
  · intro hiu
    subst hiu
    exact adaptStream_finish_last m es r u

/-- Witness for C5 at concrete inputs: a two-event stream (one content delta,
then the finish event) with `include_usage` on ends with the `[DONE]` frame,
and its final canonical chunk carries the normalized usage. -/
theorem streaming_sse_contract_witness :
    (renderStream "gpt-4o-mini" true
        ([ProviderEvent.contentDelta "Hello"] ++
          [ProviderEvent.finish "stop" usageW])).getLast? = some sseDone ∧
    (adaptStream "gpt-4o-mini" true
        ([ProviderEvent.contentDelta "Hello"] ++
          [ProviderEvent.finish "stop" usageW])).getLast? =
      some { model := "gpt-4o-mini"
             delta := { content := none, tool_calls := [] }
             finish_reason := none
             usage := some (normalizeUsage usageW) } :=
  ⟨(streaming_sse_contract "gpt-4o-mini" true [ProviderEvent.contentDelta "Hello"]
      "stop" usageW).1,
   (streaming_sse_contract "gpt-4o-mini" true [ProviderEvent.contentDelta "Hello"]
      "stop" usageW).2.2.2.2 rfl⟩

/-- C6: For every Vertex response, the usage normalizer maps
`promptTokenCount` to `prompt_tokens`, the sum
`candidatesTokenCount + thoughtsTokenCount` to `completion_tokens`, and
`thoughtsTokenCount` alone to `completion_details.reasoning_tokens`, so
`completion_tokens` minus `reasoning_tokens` equals the provider's candidates
count. -/
theorem vertex_usage_mapping (md : VertexUsageMetadata) :
    (vertexUsageToCanonical md).prompt_tokens = md.promptTokenCount ∧
    (vertexUsageToCanonical md).completion_tokens =
      md.candidatesTokenCount + md.thoughtsTokenCount ∧
    (vertexUsageToCanonical md).reasoning_tokens = some md.thoughtsTokenCount ∧
    (vertexUsageToCanonical md).completion_tokens -
        ((vertexUsageToCanonical md).reasoning_tokens.getD 0) =
      md.candidatesTokenCount := by
  refine ⟨rfl, rfl, rfl, ?_⟩
  simp [vertexUsageToCanonical]

/-- C7: For every chat completion request whose model has no binding in the
model-binding map, the dispatcher responds with HTTP status 404 (the
`UnknownModel` error kind) without calling any upstream provider. -/
theorem unknown_model_404 (cfg : GatewayConfig) (pool : List Credential)
    (now : Nat) (upstream upstream2 : Binding → Credential → UpstreamResult)
    (req : HttpChatRequest)
    (hauth : extractBearer req.authorization = some cfg.masterKey)
    (hmsgs : req.body.messages ≠ [])
    (hbind : lookupBinding cfg.bindings req.body.model = none) :
    dispatchChat cfg pool now upstream req =
      Outcome.failure 404 unknownModelBody ∧
    dispatchChat cfg pool now upstream req =
      dispatchChat cfg pool now upstream2 req := by
  have hempty : req.body.messages.isEmpty = false := by
    simp [List.isEmpty_iff, hmsgs]
  simp [dispatchChat, hauth, hempty, hbind]

/-- Witness for C7 at concrete inputs: an authenticated request for
`non-existent-model` yields the 404 unknown-model outcome, independently of
the upstream function. -/
theorem unknown_model_404_witness :
    dispatchChat cfgW poolW 10 okUpstreamW unknownModelReqW =
      Outcome.failure 404 unknownModelBody ∧
    dispatchChat cfgW poolW 10 okUpstreamW unknownModelReqW =
      dispatchChat cfgW poolW 10 altUpstreamW unknownModelReqW :=
  ⟨(unknown_model_404 cfgW poolW 10 okUpstreamW altUpstreamW unknownModelReqW
      (by decide) (by decide) (by decide)).1,
   (unknown_model_404 cfgW poolW 10 okUpstreamW altUpstreamW unknownModelReqW
      (by decide) (by decide) (by decide)).2⟩

/-- C8: For every `/v1/images/generations` request with parameter `n` on an
image-generation model, the request is translated into the provider's
`predict` call with `parameters.sampleCount = n`, and — for an upstream that
honours `sampleCount` and returns non-empty image payloads — a successful
response carries exactly `n` entries in `data`, each with non-empty
`b64_json`. -/
theorem image_generation_contract
    (predict : PredictRequest → PredictResponse) (r : ImagesRequest)
    (hlen : ∀ q, (predict q).predictions.length = q.parameters.sampleCount)
    (hdata : ∀ q, ∀ p ∈ (predict q).predictions, p.bytesBase64Encoded ≠ "") :
    (adaptImageRequest r).parameters.sampleCount = r.n ∧
    (adaptImageRequest r).instances = [{ prompt := r.prompt }] ∧
    (imageGeneration predict r).data.length = r.n ∧
    ∀ d ∈ (imageGeneration predict r).data, d.b64_json ≠ "" := by
  refine ⟨rfl, rfl, ?_, ?_⟩
  · simp [imageGeneration, adaptImageResponse, hlen, adaptImageRequest]
  · intro d hd
    simp only [imageGeneration, adaptImageResponse] at hd
    rcases List.mem_map.mp hd with ⟨p, hp, rfl⟩
    exact hdata _ p hp

/-- Witness for C8 at concrete inputs: with an upstream honouring
`sampleCount`, the request with `n = 2` yields exactly two `data` entries,
and the adapted predict call carries `sampleCount = 2`. -/
theorem image_generation_contract_witness :
    (adaptImageRequest
        { model := "imagen-3.0-fast-generate-001", prompt := "sunset"
          n := 2, size := "1024x1024" }).parameters.sampleCount = 2 ∧
    (imageGeneration fixedPredict
        { model := "imagen-3.0-fast-generate-001", prompt := "sunset"
          n := 2, size := "1024x1024" }).data.length = 2 :=
  ⟨(image_generation_contract fixedPredict
      { model := "imagen-3.0-fast-generate-001", prompt := "sunset"
        n := 2, size := "1024x1024" }
      (fun q => by simp [fixedPredict])
      (fun q p hp => by
        rcases List.mem_replicate.mp (by simpa [fixedPredict] using hp) with ⟨-, rfl⟩
        decide)).1,
   (image_generation_contract fixedPredict
      { model := "imagen-3.0-fast-generate-001", prompt := "sunset"
        n := 2, size := "1024x1024" }
      (fun q => by simp [fixedPredict])
      (fun q p hp => by
        rcases List.mem_replicate.mp (by simpa [fixedPredict] using hp) with ⟨-, rfl⟩
        decide)).2.2.1⟩

/-- C9: For every successful chat completion, regardless of provider, the
`model` field of the returned response equals the client-facing model alias
the client sent in the request, not the provider-native model id. -/
theorem response_model_is_client_alias (cfg : GatewayConfig)
    (pool : List Credential) (now : Nat)
    (upstream : Binding → Credential → UpstreamResult)
    (req : HttpChatRequest) (resp : ChatResponse)
    (h : dispatchChat cfg pool now upstream req = Outcome.success resp) :
    resp.model = req.body.model := by
  rcases dispatchChat_success h with ⟨n, rfl⟩
  rfl

/-- Witness for C9 at concrete inputs: the successful dispatch of the fixture
request (whose upstream reports the provider-native id
`gpt-4o-mini-2024-07-18`) returns a response whose model field equals the
client alias `gpt-4o-mini`. -/
theorem response_model_is_client_alias_witness :
    (adaptChatResponse "gpt-4o-mini" nativeW).model = goodReqW.body.model :=
  response_model_is_client_alias cfgW poolW 10 okUpstreamW goodReqW
    (adaptChatResponse "gpt-4o-mini" nativeW) (by decide)

/-- C10: For every chat completion request whose messages list is empty, the
gateway rejects the request with an HTTP status of at least 400 (here 400)
instead of forwarding it to any upstream provider (the outcome is independent
of the upstream function). -/
theorem empty_messages_rejected (cfg : GatewayConfig) (pool : List Credential)
    (now : Nat) (upstream upstream2 : Binding → Credential → UpstreamResult)
    (req : HttpChatRequest)
    (hauth : extractBearer req.authorization = some cfg.masterKey)
    (hmsgs : req.body.messages = []) :
    dispatchChat cfg pool now upstream req =
      Outcome.failure 400 emptyMessagesBody ∧
    dispatchChat cfg pool now upstream req =
      dispatchChat cfg pool now upstream2 req := by
  have hempty : req.body.messages.isEmpty = true := by simp [hmsgs]
  simp [dispatchChat, hauth, hempty]

/-- Witness for C10 at concrete inputs: an authenticated request with an
empty messages list is rejected with status 400, independently of the
upstream function. -/
theorem empty_messages_rejected_witness :
    dispatchChat cfgW poolW 10 okUpstreamW emptyMsgReqW =
      Outcome.failure 400 emptyMessagesBody ∧
    dispatchChat cfgW poolW 10 okUpstreamW emptyMsgReqW =
      dispatchChat cfgW poolW 10 altUpstreamW emptyMsgReqW :=
  ⟨(empty_messages_rejected cfgW poolW 10 okUpstreamW altUpstreamW emptyMsgReqW
      (by decide) (by decide)).1,
   (empty_messages_rejected cfgW poolW 10 okUpstreamW altUpstreamW emptyMsgReqW
      (by decide) (by decide)).2⟩

end AutoAiRouter
